import Mathlib

/-
Shallow embedding of `src/api/main.ts` (letsdo_deno): an in-memory books
CRUD service built on a `Map<string, Book>` with oak-style route handlers.

JavaScript semantics captured here:
  - `Map` is modelled as an association list (`Store`) whose `set` replaces
    the value in place when the key exists and appends otherwise, `delete`
    removes the entry, `get`/`has` look the key up.
  - JSON bodies parsed into `Partial<Book>` are modelled by `PartialBook`
    with one `Option` per field (a missing property is `none`).
  - JavaScript truthiness on strings (`!s` holds for `""`) and numbers
    (`!n` holds for `0`) is modelled by `truthyStr` / `truthyInt`.
  - The spread `{ id, ...newBook }` lets a property present in `newBook`
    (even with a falsy value) win over the computed `id`; `Option.getD`
    captures exactly that.
-/

set_option autoImplicit false

namespace LetsdoDeno

/-- The `Book` interface of `main.ts` (lines 28-35). -/
structure Book where
  id : String
  title : String
  author : String
  genre : String
  year : Int
  summary : String
deriving Repr, DecidableEq

/-- The body of a request, parsed as `Partial<Book>`: every field optional. -/
structure PartialBook where
  id : Option String := none
  title : Option String := none
  author : Option String := none
  genre : Option String := none
  year : Option Int := none
  summary : Option String := none
deriving Repr, DecidableEq

/-- The `books` map (`Map<string, Book>`, line 37), as an association list
in insertion order. -/
abbrev Store := List (String × Book)

/-- `books.has(k)`. -/
def mapHas : Store → String → Bool
  | [], _ => false
  | p :: rest, k => p.1 == k || mapHas rest k

/-- `books.get(k)`: the value at the first (on a `Map`, only) entry whose
key is `k`. -/
def mapGet : Store → String → Option Book
  | [], _ => none
  | p :: rest, k => if p.1 == k then some p.2 else mapGet rest k

/-- `books.set(k, v)`: replace the entry in place when the key exists
(JavaScript `Map` keeps the original insertion position), append a fresh
entry at the end otherwise. -/
def mapSet : Store → String → Book → Store
  | [], k, v => [(k, v)]
  | p :: rest, k, v => if p.1 == k then (k, v) :: rest else p :: mapSet rest k v

/-- `books.delete(k)`: remove the entry whose key is `k`. -/
def mapDelete : Store → String → Store
  | [], _ => []
  | p :: rest, k => if p.1 == k then mapDelete rest k else p :: mapDelete rest k

/-- JavaScript truthiness of an optional string property:
`undefined` and `""` are falsy. -/
def truthyStr : Option String → Bool
  | none => false
  | some s => !(s == "")

/-- JavaScript truthiness of an optional number property:
`undefined` and `0` are falsy. -/
def truthyInt : Option Int → Bool
  | none => false
  | some n => !(n == 0)

/-- Response bodies the handlers produce. `httpError` stands for a thrown
oak `HttpError` after the error-handler middleware (lines 177-196) rendered
it into a response with the error's status. `fatal` stands for a thrown
error that is not an `HttpError`: `isHttpError` (line 181) rejects it, so
the middleware logs it and rethrows (lines 192-193) and the request
terminates abnormally with oak's generic failure instead of one of the
handler's structured responses. -/
inductive RespBody where
  | book (b : Book)
  | bookList (l : List Book)
  | message (s : String)
  | jsonError (s : String)
  | httpError (status : Nat) (msg : String)
  | html (path : String)
  | fatal (msg : String)
  | empty
deriving Repr, DecidableEq

/-- The `notFound` handler (lines 70-74): 404 with an HTML body naming the
requested path. -/
def notFound (path : String) : Nat × RespBody :=
  (404, RespBody.html path)

/-- `GET /books/:id` (lines 83-92): a found book is a truthy object, so the
`if (book)` test succeeds exactly when the lookup does. -/
def getBookById (st : Store) (id : String) : Store × Nat × RespBody :=
  match mapGet st id with
  | some b => (st, 200, RespBody.book b)
  | none => (st, (notFound ("/books/" ++ id)).1, (notFound ("/books/" ++ id)).2)

/-- The required-field test of `POST /books` (line 102):
`!newBook.title || !newBook.author || !newBook.genre || !newBook.year ||
!newBook.summary`, JavaScript truthiness included. -/
def missingRequired (p : PartialBook) : Bool :=
  !(truthyStr p.title) || !(truthyStr p.author) || !(truthyStr p.genre)
    || !(truthyInt p.year) || !(truthyStr p.summary)

/-- The key `POST /books` stores under (line 106):
`(!newBook.id) ? uuid.generate() : newBook.id`. -/
def postKey (p : PartialBook) (fresh : String) : String :=
  if !(truthyStr p.id) then fresh else p.id.getD fresh

/-- The record `POST /books` stores (line 107): `{ id, ...newBook }` — a
property present in `newBook` (even with a falsy value, `id` included)
overwrites the computed `id`; the five required fields are present
whenever `missingRequired` failed, so the `getD` defaults are inert. -/
def postRecord (p : PartialBook) (fresh : String) : Book :=
  { id := p.id.getD (postKey p fresh)
  , title := p.title.getD ""
  , author := p.author.getD ""
  , genre := p.genre.getD ""
  , year := p.year.getD 0
  , summary := p.summary.getD "" }

/-- `POST /books` (lines 94-112). `body = none` models a request without a
body (`!context.request.hasBody`); `fresh` is the uuid `uuid.generate()`
would return. -/
def postBooks (st : Store) (body : Option PartialBook) (fresh : String) :
    Store × Nat × RespBody :=
  match body with
  | none => (st, 400, RespBody.httpError 400 "Bad Request: No data provided")
  | some p =>
    if missingRequired p then
      (st, 400, RespBody.httpError 400 "Bad Request: Missing required fields")
    else
      (mapSet st (postKey p fresh) (postRecord p fresh), 201,
       RespBody.book (postRecord p fresh))

/-- `PUT /books/:id` (lines 114-140) as it behaves under the pinned oak
version `v17.1.2` (line 20). The handler first checks `context.params.id`
(lines 116-120: 400 on a falsy id). Line 122 then evaluates
`context.request.body()` — but in oak v17.1.2 `request.body` is a `Body`
property, not a function (the POST handler at line 99 reads that very
property), so the call itself throws a `TypeError` before the body is
read: the body check (line 125), the existence check (line 131) and the
spread merge (line 137) are unreachable, the store is never modified, and
the thrown `TypeError` is logged and rethrown by the error middleware.
The request's parsed body is therefore never consulted. -/
def putBooks (st : Store) (id : String) (_body : Option PartialBook) :
    Store × Nat × RespBody :=
  if id == "" then (st, 400, RespBody.jsonError "ID is required")
  else (st, 500, RespBody.fatal "context.request.body is not a function")

/-- `DELETE /books/:id` (lines 143-152): `if (bookId && books.has(bookId))`
deletes, anything else falls to `notFound`. -/
def deleteBooks (st : Store) (id : String) : Store × Nat × RespBody :=
  if !(id == "") && mapHas st id then (mapDelete st id, 204, RespBody.empty)
  else (st, (notFound ("/books/" ++ id)).1, (notFound ("/books/" ++ id)).2)

/-- `loadBooksData` (lines 53-64): a failed file read or JSON parse is
caught before any entry is stored, so the store is left as it was;
otherwise every entry is `set` under its own `id` field in order. -/
def loadBooksData (st : Store) (input : Except String (List Book)) : Store :=
  match input with
  | Except.error _ => st
  | Except.ok l => l.foldl (fun acc b => mapSet acc b.id b) st

/-! ### The application pipeline (middleware + router) -/

/-- Request paths as the router sees them: the two registered patterns and
everything else. -/
inductive ReqPath where
  | books
  | booksId (id : String)
  | other (p : String)
deriving Repr, DecidableEq

/-- The textual form of a path, used by the not-found HTML body. -/
def pathString : ReqPath → String
  | ReqPath.books => "/books"
  | ReqPath.booksId id => "/books/" ++ id
  | ReqPath.other p => p

/-- One store-mutating operation: a Loader `put`, or one of the three
mutating handlers. -/
inductive Op where
  | load (b : Book)
  | create (body : Option PartialBook) (fresh : String)
  | update (id : String) (body : Option PartialBook)
  | del (id : String)
deriving Repr

/-- The store after one operation. -/
def applyOp (st : Store) : Op → Store
  | Op.load b => mapSet st b.id b
  | Op.create body fresh => (postBooks st body fresh).1
  | Op.update id body => (putBooks st id body).1
  | Op.del id => (deleteBooks st id).1

/-- The store after a sequence of operations. -/
def runOps (st : Store) (ops : List Op) : Store :=
  ops.foldl applyOp st

/-- Every stored book's `id` field equals the key it is stored under. -/
def idKeyInvB (st : Store) : Bool :=
  st.all (fun p => p.2.id == p.1)

/-- The store's keys are pairwise distinct (true of every JavaScript
`Map`). -/
def keysNodupB : Store → Bool
  | [] => true
  | p :: rest => !(mapHas rest p.1) && keysNodupB rest

/-- Operations whose payloads do not smuggle a conflicting `id` through
the `{ id, ...newBook }` spread: a Create body never carries a
present-but-empty `id` property. No condition on Update is needed: under
the pinned oak version the Update handler throws before reading its body
and never modifies the store. -/
def goodOpB : Op → Bool
  | Op.create (some p) _ => !(p.id == some "")
  | _ => true

/-- The claim's notion of a valid Create payload, stated from the spec's
data model to compare with what `postBooks` accepts: `title`, `author`,
`genre`, `year`, `summary` all present with their declared types
(`title`/`author`/`genre` non-empty display strings, `year` an integer,
`summary` a free-text string). -/
def claimValidPayloadB (p : PartialBook) : Bool :=
  (match p.title with | some t => t != "" | none => false)
  && (match p.author with | some a => a != "" | none => false)
  && (match p.genre with | some g => g != "" | none => false)
  && p.year.isSome
  && p.summary.isSome

/-! ### Lemmas about the map operations -/

theorem mapGet_eq_none_iff (st : Store) (k : String) :
    mapGet st k = none ↔ mapHas st k = false := by
  induction st with
  | nil => simp [mapGet, mapHas]
  | cons p rest ih =>
    by_cases hp : (p.1 == k) = true
    · simp [mapGet, mapHas, hp]
    · have hp' : (p.1 == k) = false := by simpa using hp
      simp [mapGet, mapHas, hp', ih]

theorem mapGet_mem {st : Store} {k : String} {b : Book}
    (h : mapGet st k = some b) : (k, b) ∈ st := by
  induction st with
  | nil => simp [mapGet] at h
  | cons p rest ih =>
    by_cases hp : (p.1 == k) = true
    · have h1 : p.1 = k := by simpa using hp
      rw [mapGet, if_pos hp] at h
      have h2 : p.2 = b := by simpa using h
      have h3 : (k, b) = p := by rw [← h1, ← h2]
      rw [h3]
      exact List.mem_cons_self _ _
    · have hp' : (p.1 == k) = false := by simpa using hp
      rw [mapGet, if_neg (by simp [hp'])] at h
      exact List.mem_cons_of_mem _ (ih h)

theorem mapGet_mapSet_self (st : Store) (k : String) (v : Book) :
    mapGet (mapSet st k v) k = some v := by
  induction st with
  | nil => simp [mapSet, mapGet]
  | cons p rest ih =>
    by_cases hp : (p.1 == k) = true
    · simp [mapSet, mapGet, hp]
    · have hp' : (p.1 == k) = false := by simpa using hp
      simp [mapSet, mapGet, hp', ih]

theorem mapHas_mapSet (st : Store) (k a : String) (v : Book) :
    mapHas (mapSet st k v) a = (k == a || mapHas st a) := by
  induction st with
  | nil => simp [mapSet, mapHas]
  | cons p rest ih =>
    by_cases hp : (p.1 == k) = true
    · have h1 : p.1 = k := by simpa using hp
      subst h1
      simp only [mapSet, hp, if_true, mapHas]
      cases hpa : (p.1 == a) <;> simp [hpa]
    · have hp' : (p.1 == k) = false := by simpa using hp
      simp only [mapSet, hp', Bool.false_eq_true, if_false, mapHas, ih]
      cases hpa : (p.1 == a) <;> cases hka : (k == a) <;> simp [hpa, hka]

theorem mapHas_mapSet_of_has {st : Store} {a : String} (k : String) (v : Book)
    (h : mapHas st a = true) : mapHas (mapSet st k v) a = true := by
  rw [mapHas_mapSet, h, Bool.or_true]

theorem length_mapSet_of_has {st : Store} {k : String} (v : Book)
    (h : mapHas st k = true) : (mapSet st k v).length = st.length := by
  induction st with
  | nil => simp [mapHas] at h
  | cons p rest ih =>
    by_cases hp : (p.1 == k) = true
    · simp [mapSet, hp]
    · have hp' : (p.1 == k) = false := by simpa using hp
      have h2 : mapHas rest k = true := by simpa [mapHas, hp'] using h
      simp [mapSet, hp', ih h2]

theorem mem_mapSet {st : Store} {k : String} {v : Book} {q : String × Book}
    (h : q ∈ mapSet st k v) : q = (k, v) ∨ q ∈ st := by
  induction st with
  | nil =>
    simp [mapSet] at h
    simp [h]
  | cons p rest ih =>
    by_cases hp : (p.1 == k) = true
    · simp [mapSet, hp] at h
      rcases h with h | h
      · left; simp [h]
      · right; exact List.mem_cons_of_mem _ h
    · have hp' : (p.1 == k) = false := by simpa using hp
      simp [mapSet, hp'] at h
      rcases h with h | h
      · right; simp [h]
      · rcases ih h with h2 | h2
        · left; exact h2
        · right; exact List.mem_cons_of_mem _ h2

theorem mapHas_mapDelete_self (st : Store) (k : String) :
    mapHas (mapDelete st k) k = false := by
  induction st with
  | nil => simp [mapDelete, mapHas]
  | cons p rest ih =>
    by_cases hp : (p.1 == k) = true
    · simpa [mapDelete, hp] using ih
    · have hp' : (p.1 == k) = false := by simpa using hp
      simp [mapDelete, hp', mapHas, ih]

theorem mapHas_mapDelete_mono {st : Store} {k a : String}
    (h : mapHas (mapDelete st k) a = true) : mapHas st a = true := by
  induction st with
  | nil => simpa [mapDelete] using h
  | cons p rest ih =>
    by_cases hp : (p.1 == k) = true
    · simp [mapDelete, hp] at h
      simp [mapHas, ih h]
    · have hp' : (p.1 == k) = false := by simpa using hp
      simp [mapDelete, hp', mapHas] at h
      rcases h with h | h
      · simp [mapHas, h]
      · simp [mapHas, ih h]

theorem mem_mapDelete {st : Store} {k : String} {q : String × Book}
    (h : q ∈ mapDelete st k) : q ∈ st := by
  induction st with
  | nil => simp [mapDelete] at h
  | cons p rest ih =>
    by_cases hp : (p.1 == k) = true
    · simp [mapDelete, hp] at h
      exact List.mem_cons_of_mem _ (ih h)
    · have hp' : (p.1 == k) = false := by simpa using hp
      simp [mapDelete, hp'] at h
      rcases h with h | h
      · simp [h]
      · exact List.mem_cons_of_mem _ (ih h)

/-! ### Lemmas about the store invariants -/

theorem idKeyInvB_iff (st : Store) :
    idKeyInvB st = true ↔ ∀ p ∈ st, p.2.id = p.1 := by
  simp [idKeyInvB, List.all_eq_true]

theorem idKeyInvB_mapSet {st : Store} {k : String} {v : Book}
    (h : idKeyInvB st = true) (hv : v.id = k) :
    idKeyInvB (mapSet st k v) = true := by
  rw [idKeyInvB_iff] at h ⊢
  intro q hq
  rcases mem_mapSet hq with h1 | h1
  · subst h1; exact hv
  · exact h q h1

theorem idKeyInvB_mapDelete {st : Store} (k : String)
    (h : idKeyInvB st = true) : idKeyInvB (mapDelete st k) = true := by
  rw [idKeyInvB_iff] at h ⊢
  exact fun q hq => h q (mem_mapDelete hq)

theorem keysNodupB_mapSet {st : Store} (k : String) (v : Book)
    (h : keysNodupB st = true) : keysNodupB (mapSet st k v) = true := by
  induction st with
  | nil => simp [mapSet, keysNodupB, mapHas]
  | cons p rest ih =>
    rw [keysNodupB, Bool.and_eq_true] at h
    by_cases hp : (p.1 == k) = true
    · have h1 : p.1 = k := by simpa using hp
      simp only [mapSet, hp, if_true, keysNodupB, Bool.and_eq_true]
      refine ⟨?_, h.2⟩
      rw [← h1]
      exact h.1
    · have hp' : (p.1 == k) = false := by simpa using hp
      have h2 : (k == p.1) = false := by
        simp only [beq_eq_false_iff_ne] at hp' ⊢
        exact fun hh => hp' hh.symm
      have h3 : mapHas rest p.1 = false := by simpa using h.1
      simp only [mapSet, hp', Bool.false_eq_true, if_false, keysNodupB,
        Bool.and_eq_true, mapHas_mapSet, h2, h3, Bool.or_false]
      exact ⟨rfl, ih h.2⟩

theorem keysNodupB_mapDelete {st : Store} (k : String)
    (h : keysNodupB st = true) : keysNodupB (mapDelete st k) = true := by
  induction st with
  | nil => simpa [mapDelete] using h
  | cons p rest ih =>
    rw [keysNodupB, Bool.and_eq_true] at h
    by_cases hp : (p.1 == k) = true
    · simp [mapDelete, hp, ih h.2]
    · have hp' : (p.1 == k) = false := by simpa using hp
      have h1 : mapHas rest p.1 = false := by simpa using h.1
      have h2 : mapHas (mapDelete rest k) p.1 = false := by
        by_contra hc
        rw [Bool.not_eq_false] at hc
        have := mapHas_mapDelete_mono hc
        simp [h1] at this
      simp [mapDelete, hp', keysNodupB, h2, ih h.2]

theorem mapHas_foldl_mono (l : List Book) :
    ∀ (st : Store) (a : String), mapHas st a = true →
      mapHas (l.foldl (fun acc x => mapSet acc x.id x) st) a = true := by
  induction l with
  | nil =>
    intro st a h
    simpa using h
  | cons x xs ih =>
    intro st a h
    simp only [List.foldl_cons]
    exact ih _ _ (mapHas_mapSet_of_has _ _ h)

theorem mapHas_loadFold (l : List Book) :
    ∀ (st : Store) (b : Book), b ∈ l →
      mapHas (l.foldl (fun acc x => mapSet acc x.id x) st) b.id = true := by
  induction l with
  | nil =>
    intro st b hb
    simp at hb
  | cons x xs ih =>
    intro st b hb
    simp only [List.foldl_cons]
    rcases List.mem_cons.mp hb with h | h
    · subst h
      refine mapHas_foldl_mono xs _ _ ?_
      rw [mapHas_mapSet]
      simp
    · exact ih _ b h

/-! ### Claims -/

/-- C7: `GET /books/:id` responds 200 with the stored book when the id is
present in the store, and 404 with the not-found HTML body naming the path
otherwise; in particular an id never inserted is absent, so it always
yields 404. -/
theorem c7_get_by_id (st : Store) (id : String) :
    (∀ b, mapGet st id = some b → getBookById st id = (st, 200, RespBody.book b))
    ∧ (mapGet st id = none →
        getBookById st id = (st, 404, RespBody.html ("/books/" ++ id))) := by
  constructor
  · intro b hb
    simp [getBookById, hb]
  · intro hb
    simp [getBookById, hb, notFound]

/-- Witness for C7 at a concrete store: the loaded book is returned with
200, and a never-inserted id yields 404. -/
theorem c7_get_by_id_witness :
    getBookById [("1", ⟨"1", "A", "B", "C", 2000, "S"⟩)] "1"
      = ([("1", ⟨"1", "A", "B", "C", 2000, "S"⟩)], 200,
         RespBody.book ⟨"1", "A", "B", "C", 2000, "S"⟩)
    ∧ getBookById [("1", ⟨"1", "A", "B", "C", 2000, "S"⟩)] "zzz"
      = ([("1", ⟨"1", "A", "B", "C", 2000, "S"⟩)], 404, RespBody.html "/books/zzz") := by
  constructor
  · exact (c7_get_by_id [("1", ⟨"1", "A", "B", "C", 2000, "S"⟩)] "1").1
      ⟨"1", "A", "B", "C", 2000, "S"⟩ (by decide)
  · exact (c7_get_by_id [("1", ⟨"1", "A", "B", "C", 2000, "S"⟩)] "zzz").2 (by decide)

/-- C4: a Create request with no body, or whose body lacks one of the five
required fields, gets status 400 and leaves the store untouched. -/
theorem c4_create_bad_request (st : Store) (body : Option PartialBook) (fresh : String)
    (h : body = none ∨ ∃ p, body = some p ∧
      (p.title = none ∨ p.author = none ∨ p.genre = none ∨ p.year = none
        ∨ p.summary = none)) :
    (postBooks st body fresh).1 = st ∧ (postBooks st body fresh).2.1 = 400 := by
  rcases h with h | ⟨p, hp, hf⟩
  · subst h
    simp [postBooks]
  · subst hp
    have hmiss : missingRequired p = true := by
      rcases hf with h | h | h | h | h <;>
        simp [missingRequired, truthyStr, truthyInt, h]
    simp [postBooks, hmiss]

/-- Witness for C4: a bodyless request and a body missing `title` both
yield 400 with the store unchanged. -/
theorem c4_create_bad_request_witness :
    ((postBooks [] none "f1").1 = [] ∧ (postBooks [] none "f1").2.1 = 400)
    ∧ ((postBooks [] (some ⟨none, none, some "B", some "C", some 2000, some "S"⟩) "f1").1 = []
       ∧ (postBooks [] (some ⟨none, none, some "B", some "C", some 2000, some "S"⟩) "f1").2.1 = 400) := by
  constructor
  · exact c4_create_bad_request [] none "f1" (Or.inl rfl)
  · exact c4_create_bad_request []
      (some ⟨none, none, some "B", some "C", some 2000, some "S"⟩) "f1"
      (Or.inr ⟨_, rfl, Or.inl rfl⟩)

/-- C2: under the pinned oak v17.1.2 the PUT handler cannot deliver its
documented contract. At every input past the id guard — existing id with
an object body, missing body, absent id alike — line 122's
`context.request.body()` throws a `TypeError`, the error middleware
rethrows it, the store is untouched and none of the 200/400/404 responses
of the claim is produced. Evaluated here at the claim's three cases on a
store holding the book with id "1". -/
theorem c2_put_type_error_code_bug :
    putBooks [("1", ⟨"1", "A", "B", "C", 2000, "S"⟩)] "1"
        (some ⟨none, none, none, none, some 2020, none⟩)
      = ([("1", ⟨"1", "A", "B", "C", 2000, "S"⟩)], 500,
         RespBody.fatal "context.request.body is not a function")
    ∧ putBooks [("1", ⟨"1", "A", "B", "C", 2000, "S"⟩)] "1" none
      = ([("1", ⟨"1", "A", "B", "C", 2000, "S"⟩)], 500,
         RespBody.fatal "context.request.body is not a function")
    ∧ putBooks [("1", ⟨"1", "A", "B", "C", 2000, "S"⟩)] "2"
        (some ⟨none, none, none, none, some 2020, none⟩)
      = ([("1", ⟨"1", "A", "B", "C", 2000, "S"⟩)], 500,
         RespBody.fatal "context.request.body is not a function") := by
  decide

/-- C5: under the pinned oak v17.1.2 the spread merge at line 137 is
unreachable — the body read at line 122 throws first — so
`Update("1", {year: 2020})` on a stored record changes nothing: the store
is returned unchanged and a subsequent Get still answers the old record
with year 2000, not the merged one the claim describes. -/
theorem c5_update_no_merge_code_bug :
    (putBooks [("1", ⟨"1", "A", "B", "C", 2000, "S"⟩)] "1"
        (some ⟨none, none, none, none, some 2020, none⟩)).1
      = [("1", ⟨"1", "A", "B", "C", 2000, "S"⟩)]
    ∧ mapGet (putBooks [("1", ⟨"1", "A", "B", "C", 2000, "S"⟩)] "1"
        (some ⟨none, none, none, none, some 2020, none⟩)).1 "1"
      = some ⟨"1", "A", "B", "C", 2000, "S"⟩
    ∧ (putBooks [("1", ⟨"1", "A", "B", "C", 2000, "S"⟩)] "1"
        (some ⟨none, none, none, none, some 2020, none⟩)).2.2
      = RespBody.fatal "context.request.body is not a function" := by
  decide

/-- C6 counterexample: the Loader can store a book whose `id` is the empty
string; that id is then present in the store, yet the first Delete on it
answers 404 (the handler's `bookId && books.has(bookId)` guard fails on
the falsy empty string) instead of 204, and the record survives. -/
theorem c6_delete_idempotent_counterexample :
    mapHas (runOps [] [Op.load ⟨"", "A", "B", "C", 2000, "S"⟩]) "" = true
    ∧ (deleteBooks (runOps [] [Op.load ⟨"", "A", "B", "C", 2000, "S"⟩]) "").2.1 = 404
    ∧ mapHas (deleteBooks (runOps [] [Op.load ⟨"", "A", "B", "C", 2000, "S"⟩]) "").1 ""
        = true := by
  decide

/-- C6 amended: for every nonempty id X present in the store, Delete(X)
then Delete(X) again answer 204 and then 404, and X is absent from the
store after the first call and after both calls. -/
theorem c6_delete_idempotent_amended (st : Store) (X : String)
    (hX : X ≠ "") (h : mapHas st X = true) :
    (deleteBooks st X).2.1 = 204
    ∧ (deleteBooks (deleteBooks st X).1 X).2.1 = 404
    ∧ mapHas (deleteBooks st X).1 X = false
    ∧ mapHas (deleteBooks (deleteBooks st X).1 X).1 X = false := by
  have hX' : (X == "") = false := by simpa using hX
  have h1 : deleteBooks st X = (mapDelete st X, 204, RespBody.empty) := by
    simp [deleteBooks, hX', h]
  have h2 : mapHas (mapDelete st X) X = false := mapHas_mapDelete_self st X
  have h3 : deleteBooks (mapDelete st X) X
      = (mapDelete st X, 404, RespBody.html ("/books/" ++ X)) := by
    simp [deleteBooks, hX', h2, notFound]
  refine ⟨by simp [h1], ?_, by simp [h1, h2], ?_⟩
  · rw [h1]
    simp [h3]
  · rw [h1]
    simp [h3, h2]

/-- Witness for C6 amended: deleting a stored book twice gives 204 then
404 and removes it. -/
theorem c6_delete_idempotent_amended_witness :
    (deleteBooks [("1", ⟨"1", "A", "B", "C", 2000, "S"⟩)] "1").2.1 = 204
    ∧ (deleteBooks (deleteBooks [("1", ⟨"1", "A", "B", "C", 2000, "S"⟩)] "1").1 "1").2.1
        = 404
    ∧ mapHas (deleteBooks [("1", ⟨"1", "A", "B", "C", 2000, "S"⟩)] "1").1 "1" = false
    ∧ mapHas (deleteBooks
        (deleteBooks [("1", ⟨"1", "A", "B", "C", 2000, "S"⟩)] "1").1 "1").1 "1"
        = false := by
  exact c6_delete_idempotent_amended [("1", ⟨"1", "A", "B", "C", 2000, "S"⟩)] "1"
    (by decide) (by decide)

/-- C8: a Loader failure (file read or JSON parse error) is non-fatal —
`loadBooksData` returns a store instead of propagating the error — and
leaves the store exactly as it was, empty at startup; on success every
entry of the array is inserted under its own `id` field. -/
theorem c8_loader (st : Store) (e : String) (l : List Book) (b : Book)
    (hb : b ∈ l) :
    loadBooksData st (Except.error e) = st
    ∧ loadBooksData [] (Except.error e) = []
    ∧ mapHas (loadBooksData st (Except.ok l)) b.id = true := by
  refine ⟨rfl, rfl, ?_⟩
  simp only [loadBooksData]
  exact mapHas_loadFold l st b hb

/-- Witness for C8 at the spec's concrete scenario: loading
`[{"id":"1",...}]` into the empty store puts id "1" in the store, and a
failed load leaves the empty store empty. -/
theorem c8_loader_witness :
    loadBooksData [("x", ⟨"x", "T", "U", "V", 1999, "Z"⟩)]
        (Except.error "Error reading books.json") = [("x", ⟨"x", "T", "U", "V", 1999, "Z"⟩)]
    ∧ loadBooksData [] (Except.error "Error reading books.json") = []
    ∧ mapHas (loadBooksData [("x", ⟨"x", "T", "U", "V", 1999, "Z"⟩)]
        (Except.ok [⟨"1", "A", "B", "C", 2000, "S"⟩]))
        (Book.id ⟨"1", "A", "B", "C", 2000, "S"⟩) = true := by
  exact c8_loader [("x", ⟨"x", "T", "U", "V", 1999, "Z"⟩)] "Error reading books.json"
    [⟨"1", "A", "B", "C", 2000, "S"⟩] ⟨"1", "A", "B", "C", 2000, "S"⟩ (by simp)

/-- C1 counterexample: two payloads that are valid in the claim's sense —
all five required fields present with their declared types — are rejected
with 400: one with `year` 0 and one with `summary` `""`, because the
required-field check uses JavaScript truthiness and both values are
falsy. -/
theorem c1_create_valid_counterexample :
    (claimValidPayloadB ⟨none, some "A", some "B", some "C", some 0, some "S"⟩ = true
     ∧ (postBooks [] (some ⟨none, some "A", some "B", some "C", some 0, some "S"⟩)
         "f1").2.1 = 400)
    ∧ (claimValidPayloadB ⟨none, some "A", some "B", some "C", some 2000, some ""⟩ = true
       ∧ (postBooks [] (some ⟨none, some "A", some "B", some "C", some 2000, some ""⟩)
           "f1").2.1 = 400) := by
  decide

/-- C1 amended: for payloads whose five required fields are present and
truthy (non-empty `title`, `author`, `genre`, `summary`; non-zero `year`),
Create answers 201 with the stored book, whose fields equal the payload's
and whose id is the caller-supplied one when the payload carries an `id`
property and a freshly generated one otherwise. -/
theorem c1_create_valid_amended (st : Store) (fresh : String) (p : PartialBook)
    (t a g s : String) (y : Int)
    (ht : p.title = some t) (ht2 : t ≠ "")
    (ha : p.author = some a) (ha2 : a ≠ "")
    (hg : p.genre = some g) (hg2 : g ≠ "")
    (hy : p.year = some y) (hy2 : y ≠ 0)
    (hs : p.summary = some s) (hs2 : s ≠ "") :
    postBooks st (some p) fresh
      = (mapSet st (postKey p fresh) (postRecord p fresh), 201,
         RespBody.book (postRecord p fresh))
    ∧ (postRecord p fresh).title = t
    ∧ (postRecord p fresh).author = a
    ∧ (postRecord p fresh).genre = g
    ∧ (postRecord p fresh).year = y
    ∧ (postRecord p fresh).summary = s
    ∧ (postRecord p fresh).id = p.id.getD fresh := by
  have h1 : truthyStr p.title = true := by rw [ht]; simp [truthyStr, ht2]
  have h2 : truthyStr p.author = true := by rw [ha]; simp [truthyStr, ha2]
  have h3 : truthyStr p.genre = true := by rw [hg]; simp [truthyStr, hg2]
  have h4 : truthyInt p.year = true := by rw [hy]; simp [truthyInt, hy2]
  have h5 : truthyStr p.summary = true := by rw [hs]; simp [truthyStr, hs2]
  have hmiss : missingRequired p = false := by
    simp [missingRequired, h1, h2, h3, h4, h5]
  refine ⟨by simp [postBooks, hmiss], by simp [postRecord, ht],
    by simp [postRecord, ha], by simp [postRecord, hg], by simp [postRecord, hy],
    by simp [postRecord, hs], ?_⟩
  cases hpid : p.id with
  | none => simp [postRecord, postKey, hpid, truthyStr]
  | some i => simp [postRecord, hpid]

/-- Witness for C1 amended: a fully-truthy payload without an id is stored
under the fresh id and echoed back with 201. -/
theorem c1_create_valid_amended_witness :
    postBooks [] (some ⟨none, some "A", some "B", some "C", some 2000, some "S"⟩) "f1"
      = (mapSet []
           (postKey ⟨none, some "A", some "B", some "C", some 2000, some "S"⟩ "f1")
           (postRecord ⟨none, some "A", some "B", some "C", some 2000, some "S"⟩ "f1"),
         201,
         RespBody.book
           (postRecord ⟨none, some "A", some "B", some "C", some 2000, some "S"⟩ "f1"))
    ∧ (postRecord ⟨none, some "A", some "B", some "C", some 2000, some "S"⟩ "f1").title
        = "A"
    ∧ (postRecord ⟨none, some "A", some "B", some "C", some 2000, some "S"⟩ "f1").author
        = "B"
    ∧ (postRecord ⟨none, some "A", some "B", some "C", some 2000, some "S"⟩ "f1").genre
        = "C"
    ∧ (postRecord ⟨none, some "A", some "B", some "C", some 2000, some "S"⟩ "f1").year
        = 2000
    ∧ (postRecord ⟨none, some "A", some "B", some "C", some 2000, some "S"⟩ "f1").summary
        = "S"
    ∧ (postRecord ⟨none, some "A", some "B", some "C", some 2000, some "S"⟩ "f1").id
        = (Option.getD (none : Option String) "f1") := by
  exact c1_create_valid_amended [] "f1"
    ⟨none, some "A", some "B", some "C", some 2000, some "S"⟩
    "A" "B" "C" "S" 2000 rfl (by decide) rfl (by decide) rfl (by decide)
    rfl (by decide) rfl (by decide)

/-- C10 counterexample: with a record stored under key "k", the
claim-valid payload `{id:"k", ..., year: 0}` is rejected with 400 rather
than replacing it; and with a record loaded under the empty-string key, a
payload supplying `id: ""` answers 201 but appends a second record under
the fresh uuid instead of replacing, growing the store. -/
theorem c10_create_replace_counterexample :
    (claimValidPayloadB ⟨some "k", some "A", some "B", some "C", some 0, some "S"⟩ = true
     ∧ mapHas (runOps [] [Op.load ⟨"k", "A", "B", "C", 2000, "S"⟩]) "k" = true
     ∧ (postBooks (runOps [] [Op.load ⟨"k", "A", "B", "C", 2000, "S"⟩])
         (some ⟨some "k", some "A", some "B", some "C", some 0, some "S"⟩) "f1").2.1
         = 400)
    ∧ (claimValidPayloadB ⟨some "", some "A", some "B", some "C", some 1, some "S"⟩ = true
       ∧ mapHas (runOps [] [Op.load ⟨"", "A", "B", "C", 2000, "S"⟩]) "" = true
       ∧ (postBooks (runOps [] [Op.load ⟨"", "A", "B", "C", 2000, "S"⟩])
           (some ⟨some "", some "A", some "B", some "C", some 1, some "S"⟩) "f1").2.1
           = 201
       ∧ (postBooks (runOps [] [Op.load ⟨"", "A", "B", "C", 2000, "S"⟩])
           (some ⟨some "", some "A", some "B", some "C", some 1, some "S"⟩) "f1").1.length
           = (runOps [] [Op.load ⟨"", "A", "B", "C", 2000, "S"⟩]).length + 1) := by
  decide

/-- C10 amended: a payload whose five required fields are truthy and whose
supplied id is nonempty and already a key of the store replaces the
existing record in place: status 201, store size unchanged, and the store
holds the new record at that id. -/
theorem c10_create_replace_amended (st : Store) (fresh : String) (p : PartialBook)
    (t a g s k : String) (y : Int)
    (ht : p.title = some t) (ht2 : t ≠ "")
    (ha : p.author = some a) (ha2 : a ≠ "")
    (hg : p.genre = some g) (hg2 : g ≠ "")
    (hy : p.year = some y) (hy2 : y ≠ 0)
    (hs : p.summary = some s) (hs2 : s ≠ "")
    (hk : p.id = some k) (hk2 : k ≠ "")
    (hhas : mapHas st k = true) :
    (postBooks st (some p) fresh).2.1 = 201
    ∧ (postBooks st (some p) fresh).1 = mapSet st k (postRecord p fresh)
    ∧ (postBooks st (some p) fresh).1.length = st.length
    ∧ mapGet (postBooks st (some p) fresh).1 k = some (postRecord p fresh) := by
  have h1 : truthyStr p.title = true := by rw [ht]; simp [truthyStr, ht2]
  have h2 : truthyStr p.author = true := by rw [ha]; simp [truthyStr, ha2]
  have h3 : truthyStr p.genre = true := by rw [hg]; simp [truthyStr, hg2]
  have h4 : truthyInt p.year = true := by rw [hy]; simp [truthyInt, hy2]
  have h5 : truthyStr p.summary = true := by rw [hs]; simp [truthyStr, hs2]
  have hmiss : missingRequired p = false := by
    simp [missingRequired, h1, h2, h3, h4, h5]
  have hkey : postKey p fresh = k := by
    simp [postKey, truthyStr, hk, hk2]
  have hres : postBooks st (some p) fresh
      = (mapSet st k (postRecord p fresh), 201, RespBody.book (postRecord p fresh)) := by
    rw [show postBooks st (some p) fresh
        = (mapSet st (postKey p fresh) (postRecord p fresh), 201,
           RespBody.book (postRecord p fresh)) from by simp [postBooks, hmiss], hkey]
  refine ⟨by simp [hres], by simp [hres], ?_, ?_⟩
  · rw [hres]
    exact length_mapSet_of_has _ hhas
  · rw [hres]
    exact mapGet_mapSet_self st k _

/-- Witness for C10 amended: creating over the existing key "k" keeps the
store a one-record store holding the new book. -/
theorem c10_create_replace_amended_witness :
    (postBooks [("k", ⟨"k", "A", "B", "C", 2000, "S"⟩)]
        (some ⟨some "k", some "T", some "U", some "V", some 1, some "W"⟩) "f1").2.1 = 201
    ∧ (postBooks [("k", ⟨"k", "A", "B", "C", 2000, "S"⟩)]
        (some ⟨some "k", some "T", some "U", some "V", some 1, some "W"⟩) "f1").1
        = mapSet [("k", ⟨"k", "A", "B", "C", 2000, "S"⟩)] "k"
            (postRecord ⟨some "k", some "T", some "U", some "V", some 1, some "W"⟩ "f1")
    ∧ (postBooks [("k", ⟨"k", "A", "B", "C", 2000, "S"⟩)]
        (some ⟨some "k", some "T", some "U", some "V", some 1, some "W"⟩) "f1").1.length
        = ([("k", ⟨"k", "A", "B", "C", 2000, "S"⟩)] : Store).length
    ∧ mapGet (postBooks [("k", ⟨"k", "A", "B", "C", 2000, "S"⟩)]
        (some ⟨some "k", some "T", some "U", some "V", some 1, some "W"⟩) "f1").1 "k"
        = some (postRecord ⟨some "k", some "T", some "U", some "V", some 1, some "W"⟩ "f1") := by
  exact c10_create_replace_amended [("k", ⟨"k", "A", "B", "C", 2000, "S"⟩)] "f1"
    ⟨some "k", some "T", some "U", some "V", some 1, some "W"⟩
    "T" "U" "V" "W" "k" 1 rfl (by decide) rfl (by decide) rfl (by decide)
    rfl (by decide) rfl (by decide) rfl (by decide) (by decide)

/-- One operation preserves the id-equals-key invariant and key
distinctness, provided it does not smuggle a conflicting `id` through the
object spread. -/
theorem applyOp_preserves {st : Store} {op : Op}
    (hgood : goodOpB op = true)
    (h1 : idKeyInvB st = true) (h2 : keysNodupB st = true) :
    idKeyInvB (applyOp st op) = true ∧ keysNodupB (applyOp st op) = true := by
  cases op with
  | load b =>
    exact ⟨idKeyInvB_mapSet h1 rfl, keysNodupB_mapSet _ _ h2⟩
  | del id =>
    by_cases hc : (!(id == "") && mapHas st id) = true
    · have hd : (deleteBooks st id).1 = mapDelete st id := by
        simp [deleteBooks, hc]
      simp only [applyOp, hd]
      exact ⟨idKeyInvB_mapDelete _ h1, keysNodupB_mapDelete _ h2⟩
    · have hc' : (!(id == "") && mapHas st id) = false := by simpa using hc
      have hd : (deleteBooks st id).1 = st := by
        simp [deleteBooks, hc']
      simp only [applyOp, hd]
      exact ⟨h1, h2⟩
  | update id body =>
    have hd : (putBooks st id body).1 = st := by
      by_cases hid : (id == "") = true
      · simp [putBooks, hid]
      · have hid' : (id == "") = false := by simpa using hid
        simp [putBooks, hid']
    simp only [applyOp, hd]
    exact ⟨h1, h2⟩
  | create body fresh =>
    cases body with
    | none =>
      have hd : (postBooks st none fresh).1 = st := rfl
      simp only [applyOp, hd]
      exact ⟨h1, h2⟩
    | some p =>
      by_cases hmiss : missingRequired p = true
      · have hd : (postBooks st (some p) fresh).1 = st := by
          simp [postBooks, hmiss]
        simp only [applyOp, hd]
        exact ⟨h1, h2⟩
      · have hmiss' : missingRequired p = false := by simpa using hmiss
        have hres : (postBooks st (some p) fresh).1
            = mapSet st (postKey p fresh) (postRecord p fresh) := by
          simp [postBooks, hmiss']
        have hgood' : ¬ (p.id = some "") := by
          simpa [goodOpB] using hgood
        have hpid : (postRecord p fresh).id = postKey p fresh := by
          cases hpidv : p.id with
          | none => simp [postRecord, hpidv]
          | some i =>
            have hi : i ≠ "" := by
              intro hcon
              exact hgood' (by rw [hpidv, hcon])
            simp [postRecord, postKey, hpidv, truthyStr, hi]
        simp only [applyOp, hres]
        exact ⟨idKeyInvB_mapSet h1 hpid, keysNodupB_mapSet _ _ h2⟩

/-- C3 counterexample: a Create whose otherwise-valid payload carries a
present-but-empty `id: ""` property breaks the invariant on a reachable
store: the empty id is falsy, so the record is stored under the fresh
uuid, but the `{ id, ...newBook }` spread then overwrites the record's
`id` with `""` — the stored book's `id` field does not equal its key. -/
theorem c3_id_key_counterexample :
    idKeyInvB (runOps [] [Op.create
        (some ⟨some "", some "A", some "B", some "C", some 2000, some "S"⟩) "f1"])
        = false := by
  decide

/-- C3 amended: in every store reachable by Loader puts, Create, Update
and Delete whose Create bodies never carry a present-but-empty `id`
property, every stored book's `id` equals its key and the keys — hence
the ids — are pairwise distinct. No condition on Update bodies is needed:
under the pinned oak version the Update handler throws before its body is
read and never changes a stored record. -/
theorem c3_id_key_invariant_amended (ops : List Op)
    (hgood : ∀ op ∈ ops, goodOpB op = true) :
    idKeyInvB (runOps [] ops) = true ∧ keysNodupB (runOps [] ops) = true := by
  suffices main : ∀ (l : List Op) (st : Store), (∀ op ∈ l, goodOpB op = true) →
      idKeyInvB st = true → keysNodupB st = true →
      idKeyInvB (runOps st l) = true ∧ keysNodupB (runOps st l) = true by
    exact main ops [] hgood rfl rfl
  intro l
  induction l with
  | nil =>
    intro st _ h1 h2
    exact ⟨h1, h2⟩
  | cons op rest ih =>
    intro st hg h1 h2
    have hstep := applyOp_preserves (hg op (List.mem_cons_self _ _)) h1 h2
    have hrun : runOps st (op :: rest) = runOps (applyOp st op) rest := by
      simp [runOps]
    rw [hrun]
    exact ih _ (fun o ho => hg o (List.mem_cons_of_mem _ ho)) hstep.1 hstep.2

/-- Witness for C3 amended: a load, a create without id, an update (whose
body may even name a different id: the handler throws before reading it),
and a delete, starting from the empty store. -/
theorem c3_id_key_invariant_amended_witness :
    (∀ op ∈ ([Op.load ⟨"1", "A", "B", "C", 2000, "S"⟩,
        Op.create (some ⟨none, some "T", some "U", some "V", some 1, some "W"⟩) "f1",
        Op.update "1" (some ⟨some "2", none, none, none, some 2020, none⟩),
        Op.del "q"] : List Op), goodOpB op = true)
    ∧ idKeyInvB (runOps [] [Op.load ⟨"1", "A", "B", "C", 2000, "S"⟩,
        Op.create (some ⟨none, some "T", some "U", some "V", some 1, some "W"⟩) "f1",
        Op.update "1" (some ⟨some "2", none, none, none, some 2020, none⟩),
        Op.del "q"]) = true
    ∧ keysNodupB (runOps [] [Op.load ⟨"1", "A", "B", "C", 2000, "S"⟩,
        Op.create (some ⟨none, some "T", some "U", some "V", some 1, some "W"⟩) "f1",
        Op.update "1" (some ⟨some "2", none, none, none, some 2020, none⟩),
        Op.del "q"]) = true := by
  refine ⟨by decide, c3_id_key_invariant_amended _ (by decide)⟩

end LetsdoDeno
